import Mathlib

/-!
Verification of `src/main.py` of the `mlp-python-trainable-service-template`
repository: a trainable-task runtime whose controller (`FitActionExample`)
builds an index-to-text lookup model (`FittedMLModel`) from input texts,
persists it through a storage backend, restores it on construction, and
answers predictions.

The Python code is shallowly embedded:

* Python values that can appear as dict keys are modelled by `PyVal`
  (strings and integers suffice for this program); Python's `str(...)` is
  `pyStr`, whose decimal rendering of naturals is `pyStrNat`.
* Python `dict` objects are association lists with insert-or-update
  semantics (`dictInsert`), membership (`dictMem`, for the `in` operator)
  and lookup (`dictLookup`, for subscripting; `none` models a `KeyError`).
* Exceptions are the `PyErr` type; a fallible operation returns `Except`.
  Because Python mutations survive an escaping exception, controller
  operations that mutate state return `Except (PyErr × ControllerState)
  ControllerState`, the error carrying the state at the moment of raising.
* The `mlp_sdk` storage backends (`LocalStorage` / `S3Storage`) are
  external to the repository; the controller only constructs them and
  performs opaque I/O through them.  The environment variables read by
  `get_env` are the `Env` record, and the outcome of each opaque I/O (or of
  the Python-level model construction step) is an oracle `World`, so that
  theorems quantify over every possible backend behaviour.
-/

namespace MlpTemplate

/-- A Python value usable as a dict key in this program: a string or an
integer. -/
inductive PyVal where
  | str (s : String)
  | int (n : Int)
deriving DecidableEq, Repr

/-- The Python exceptions this program can raise or catch: `KeyError`
(missing dict key, or the missing-blob failure the storage backend reports
on load), `ValueError` (invalid storage discriminator; missing predict
key), and any other `Exception` subclass. -/
inductive PyErr where
  | keyError (msg : String)
  | valueError (msg : String)
  | otherError (msg : String)
deriving DecidableEq, Repr

/-- The digit list (little-endian, base 10) used to render a natural number
in decimal: `Nat.digits 10 n`, except that `0` is rendered by the single
digit `0` (Python prints `str(0) = "0"`). -/
def pyDigits (n : Nat) : List Nat :=
  if n = 0 then [0] else Nat.digits 10 n

/-- Python's `str(n)` for a natural number `n`: the base-10 digits of `n`,
most significant first, as characters. -/
def pyStrNat (n : Nat) : String :=
  String.mk (((pyDigits n).map Nat.digitChar).reverse)

/-- Python's `str(...)` on the values of `PyVal`: identity on strings,
decimal rendering (with sign) on integers. -/
def pyStr : PyVal → String
  | .str s => s
  | .int n => if n < 0 then "-" ++ pyStrNat n.natAbs else pyStrNat n.natAbs

/-- Membership in a Python dict (the `in` operator). -/
def dictMem : List (PyVal × String) → PyVal → Bool
  | [], _ => false
  | (k', _) :: rest, k => if k' = k then true else dictMem rest k

/-- Subscript lookup in a Python dict; `none` models a raised `KeyError`. -/
def dictLookup : List (PyVal × String) → PyVal → Option String
  | [], _ => none
  | (k', v) :: rest, k => if k' = k then some v else dictLookup rest k

/-- Subscript assignment `d[k] = v` in a Python dict: updates the value in
place when the key is present, otherwise appends the new binding at the end
(insertion order, as in Python 3.7+ dicts). -/
def dictInsert : List (PyVal × String) → PyVal → String → List (PyVal × String)
  | [], k, v => [(k, v)]
  | (k', v') :: rest, k, v =>
    if k' = k then (k', v) :: rest else (k', v') :: dictInsert rest k v

/-- The `FittedMLModel` class of `src/main.py`: wraps the dict built at fit
time. -/
structure FittedMLModel where
  data : List (PyVal × String)
deriving DecidableEq, Repr

/-- `FittedMLModel.has_data`: `return index in self.data`. -/
def FittedMLModel.has_data (m : FittedMLModel) (index : PyVal) : Bool :=
  dictMem m.data index

/-- `FittedMLModel.predict`: if `index in self.data` then
`return self.data[str(index)]` (subscripting may raise a `KeyError`, hence
the `Except`), else return the placeholder string. -/
def FittedMLModel.predict (m : FittedMLModel) (index : PyVal) : Except PyErr String :=
  if dictMem m.data index then
    match dictLookup m.data (.str (pyStr index)) with
    | some v => .ok v
    | none => .error (.keyError (pyStr index))
  else
    .ok "No such sentence in the original dataset"

/-- The loop body chain of `FitActionExample._prepare_model_data`:
`for idx, text in enumerate(texts): data[str(idx)] = text`, carrying the
dict built so far and the current index. -/
def prepareLoop : List (PyVal × String) → Nat → List String → List (PyVal × String)
  | data, _, [] => data
  | data, idx, text :: rest =>
    prepareLoop (dictInsert data (.str (pyStrNat idx)) text) (idx + 1) rest

/-- `FitActionExample._prepare_model_data(texts)`: builds the dict mapping
`str(idx) ↦ text` over `enumerate(texts)`. -/
def prepare_model_data (texts : List String) : List (PyVal × String) :=
  prepareLoop [] 0 texts

/-- The association list `[(str(k), ts[0]), (str(k+1), ts[1]), ...]`:
the closed form `prepareLoop` is proved to produce when started at index
`k` on a dict whose keys are all decimal indices below `k`. -/
def idxEntries : Nat → List String → List (PyVal × String)
  | _, [] => []
  | k, text :: rest => (.str (pyStrNat k), text) :: idxEntries (k + 1) rest

/-- `mlp_sdk.types.TextsCollection`: the fit/predict input payload. -/
structure TextsCollection where
  texts : List String
deriving DecidableEq, Repr

/-- `mlp_sdk.types.Item`: one prediction value. -/
structure Item where
  value : String
deriving DecidableEq, Repr

/-- `mlp_sdk.types.Items`: the result group for one input text. -/
structure Items where
  items : List Item
deriving DecidableEq, Repr

/-- `mlp_sdk.types.ItemsCollection`: the predict output payload. -/
structure ItemsCollection where
  items_list : List Items
deriving DecidableEq, Repr

/-- The environment variables `FitActionExample` reads through `get_env`. -/
structure Env where
  mlp_storage_type : String
  mlp_storage_dir : String
  mlp_s3_bucket : String
  mlp_s3_region : String
  mlp_s3_access_key : String
  mlp_s3_secret_key : String
  mlp_s3_endpoint : String
deriving DecidableEq, Repr

/-- A constructed storage backend handle: `LocalStorage(path=...)` or
`S3Storage(bucket=..., data_dir=..., service_name=..., region=...,
access_key=..., secret_key=..., endpoint=...)`.  Constructing a handle
performs no I/O; the actual I/O outcomes live in `World`. -/
inductive Storage where
  | localStorage (path : String)
  | s3Storage (bucket data_dir service_name region access_key secret_key endpoint : String)
deriving DecidableEq, Repr

/-- The storage root a handle resolves keys under: the directory path of a
local backend, the data-directory of a remote one. -/
def Storage.root : Storage → String
  | .localStorage path => path
  | .s3Storage _ data_dir _ _ _ _ _ => data_dir

/-- Modelled from the spec: the discriminator name `LocalStorage.name()` of
the external `mlp_sdk` local backend — spec §6: `STORAGE_TYPE ∈ {local, s3}`. -/
def localStorageName : String := "local"

/-- Modelled from the spec: the discriminator name `S3Storage.name()` of
the external `mlp_sdk` remote backend — spec §6: `STORAGE_TYPE ∈ {local, s3}`. -/
def s3StorageName : String := "s3"

/-- The outcome oracle for the opaque effects of one controller call: the
result of every possible storage I/O (`self.storage.open` + pickle on save
and load, `storage.remove` on prune), and whether the Python-level
evaluation of `FittedMLModel(self._prepare_model_data(...))` itself raises
(e.g. `MemoryError`) before being assigned.  `none` / `.ok` means success;
quantifying over `World` quantifies over every backend behaviour. -/
structure World where
  buildException : Option PyErr
  saveResult : Storage → String → Option PyErr
  loadResult : Storage → String → Except PyErr FittedMLModel
  removeResult : Storage → String → Option PyErr

/-- The mutable attributes of a `FitActionExample` instance. -/
structure ControllerState where
  model : FittedMLModel
  storage : Storage
  model_path : String
  is_fitted_model : Bool
deriving DecidableEq, Repr

namespace FitActionExample

/-- `FitActionExample._get_storage(model_dir='')`: reads
`MLP_STORAGE_TYPE`, picks `MLP_STORAGE_DIR` when the override is empty,
then constructs the matching backend or raises
`ValueError(f"storage_type {storage_type} is invalid.")`. -/
def get_storage (env : Env) (model_dir : String) : Except PyErr Storage :=
  let storage_type := env.mlp_storage_type
  let storage_dir := if model_dir.length = 0 then env.mlp_storage_dir else model_dir
  if storage_type = localStorageName then
    .ok (.localStorage storage_dir)
  else if storage_type = s3StorageName then
    .ok (.s3Storage env.mlp_s3_bucket storage_dir "s3" env.mlp_s3_region
      env.mlp_s3_access_key env.mlp_s3_secret_key env.mlp_s3_endpoint)
  else
    .error (.valueError ("storage_type " ++ storage_type ++ " is invalid."))

/-- `FitActionExample._save_state`: opens `self.model_path` for writing on
`self.storage` and pickles the model into it; the whole effect is the
oracle's outcome at that handle and key. -/
def save_state (W : World) (st : ControllerState) : Option PyErr :=
  W.saveResult st.storage st.model_path

/-- `FitActionExample._load_state`: reads and unpickles the blob at
`self.model_path` on `self.storage`; on success assigns `self.model` and
sets `self.is_fitted_model = True`, on failure raises with the state
unchanged. -/
def load_state (W : World) (st : ControllerState) :
    Except (PyErr × ControllerState) ControllerState :=
  match W.loadResult st.storage st.model_path with
  | .ok m => .ok { st with model := m, is_fitted_model := true }
  | .error e => .error (e, st)

/-- `FitActionExample.__init__`: empty model, backend from `_get_storage()`
(a failure there propagates), `model_path = 'model.pkl'`, unfitted; then
`self._load_state()` guarded by `except KeyError` (only that class is
caught and logged — any other load failure propagates). -/
def construct (env : Env) (W : World) : Except PyErr ControllerState :=
  match get_storage env "" with
  | .error e => .error e
  | .ok s =>
    let st : ControllerState :=
      { model := ⟨[]⟩, storage := s, model_path := "model.pkl", is_fitted_model := false }
    match load_state W st with
    | .ok st' => .ok st'
    | .error (.keyError _, st') => .ok st'
    | .error (e, _) => .error e

/-- `FitActionExample.is_fitted`: `return self.is_fitted_model`. -/
def is_fitted (st : ControllerState) : Bool :=
  st.is_fitted_model

/-- `FitActionExample.fit`: reassigns `self.storage =
self._get_storage(model_dir)` (outside any handler, so a resolution failure
propagates with the state unchanged), then inside `try`: builds the new
model, `self._save_state()`, `self.is_fitted_model = True`; `except
Exception` logs and returns.  The `targets`/`config`/`target_service_info`/
`dataset_info` parameters are opaque pydantic payloads the body never
reads and are omitted; `previous_model_dir` is kept but unused, as in the
source. -/
def fit (env : Env) (W : World) (st : ControllerState) (train_data : TextsCollection)
    (model_dir : String) (_previous_model_dir : String) :
    Except (PyErr × ControllerState) ControllerState :=
  match get_storage env model_dir with
  | .error e => .error (e, st)
  | .ok s =>
    let st1 := { st with storage := s }
    match W.buildException with
    | some _ => .ok st1
    | none =>
      let st2 := { st1 with model := ⟨prepare_model_data train_data.texts⟩ }
      match save_state W st2 with
      | some _ => .ok st2
      | none => .ok { st2 with is_fitted_model := true }

/-- The `for text in data.texts` loop of `FitActionExample.predict`: raise
`ValueError('No such id here, try 0 or 1')` at the first text for which
`self.model.has_data(text)` is false, otherwise collect
`Items(items=[Item(value=str(self.model.predict(text)))])` (here `str` on
the returned string is the identity). -/
def predictTexts (m : FittedMLModel) : List String → Except PyErr (List Items)
  | [] => .ok []
  | text :: rest =>
    if m.has_data (.str text) then
      match m.predict (.str text) with
      | .error e => .error e
      | .ok predict_result =>
        match predictTexts m rest with
        | .error e => .error e
        | .ok result_list => .ok (⟨[⟨predict_result⟩]⟩ :: result_list)
    else
      .error (.valueError "No such id here, try 0 or 1")

/-- `FitActionExample.predict(data, config)`: run the loop and wrap the
collected groups in an `ItemsCollection`; an escaping exception yields no
partial output (the `config` parameter is never read and is omitted). -/
def predict (st : ControllerState) (data : TextsCollection) : Except PyErr ItemsCollection :=
  match predictTexts st.model data.texts with
  | .error e => .error e
  | .ok result_list => .ok ⟨result_list⟩

/-- `FitActionExample.prune_state(model_dir='')`: choose the override when
non-empty else `MLP_STORAGE_DIR`, resolve a fresh backend, and
`storage.remove(self.model_path)`; every failure propagates. -/
def prune_state (env : Env) (W : World) (st : ControllerState) (model_dir : String) :
    Except PyErr Unit :=
  let remove_path := if model_dir.length > 0 then model_dir else env.mlp_storage_dir
  match get_storage env remove_path with
  | .error e => .error e
  | .ok storage =>
    match W.removeResult storage st.model_path with
    | some e => .error e
    | none => .ok ()

end FitActionExample

/-! ### Concrete fixtures used by counterexamples and witnesses -/

/-- Fixture: a local-backend environment (`MLP_STORAGE_TYPE=local`,
`MLP_STORAGE_DIR=/models`). -/
def env0 : Env := ⟨"local", "/models", "", "", "", "", ""⟩

/-- Fixture: an environment whose storage discriminator `ftp` is not
recognized by either backend. -/
def envFtp : Env := ⟨"ftp", "/models", "", "", "", "", ""⟩

/-- Fixture: every effect succeeds; a load restores the one-entry model. -/
def wOk : World :=
  ⟨none, fun _ _ => none, fun _ _ => .ok ⟨[(.str "0", "a")]⟩, fun _ _ => none⟩

/-- Fixture: the persisted blob is missing, so a load raises `KeyError`;
everything else succeeds. -/
def wMiss : World :=
  ⟨none, fun _ _ => none, fun _ _ => .error (.keyError "model.pkl"), fun _ _ => none⟩

/-- Fixture: evaluating the model constructor raises; everything else
succeeds. -/
def wBuildFail : World :=
  ⟨some (.otherError "MemoryError"), fun _ _ => none,
    fun _ _ => .error (.keyError "model.pkl"), fun _ _ => none⟩

/-- Fixture: persisting the model raises; everything else succeeds. -/
def wSaveFail : World :=
  ⟨none, fun _ _ => some (.otherError "disk full"),
    fun _ _ => .error (.keyError "model.pkl"), fun _ _ => none⟩

/-- Fixture: a freshly constructed, unfitted controller on the local
backend. -/
def st0 : ControllerState :=
  ⟨⟨[]⟩, .localStorage "/models", "model.pkl", false⟩

/-- Fixture: the controller state reached from `st0` by a successful
`fit(["a"])`. -/
def stA : ControllerState :=
  ⟨⟨[(.str "0", "a")]⟩, .localStorage "/models", "model.pkl", true⟩

/-! ### The decimal rendering `pyStrNat` is injective -/

theorem digitChar_inj_of_lt {d1 d2 : Nat} (h1 : d1 < 10) (h2 : d2 < 10)
    (h : Nat.digitChar d1 = Nat.digitChar d2) : d1 = d2 := by
  have key : ∀ a : Fin 10, ∀ b : Fin 10,
      Nat.digitChar a.val = Nat.digitChar b.val → a = b := by decide
  exact congrArg Fin.val (key ⟨d1, h1⟩ ⟨d2, h2⟩ h)

theorem map_digitChar_inj : ∀ l1 l2 : List Nat, (∀ d ∈ l1, d < 10) → (∀ d ∈ l2, d < 10) →
    l1.map Nat.digitChar = l2.map Nat.digitChar → l1 = l2
  | [], [], _, _, _ => rfl
  | [], _ :: _, _, _, h => by simp at h
  | _ :: _, [], _, _, h => by simp at h
  | a :: l1, b :: l2, h1, h2, h => by
    simp only [List.map_cons, List.cons.injEq] at h
    have ha : a = b :=
      digitChar_inj_of_lt (h1 a (List.mem_cons_self a l1)) (h2 b (List.mem_cons_self b l2)) h.1
    have hl : l1 = l2 :=
      map_digitChar_inj l1 l2 (fun d hd => h1 d (List.mem_cons_of_mem a hd))
        (fun d hd => h2 d (List.mem_cons_of_mem b hd)) h.2
    rw [ha, hl]

theorem pyDigits_lt (n : Nat) : ∀ d ∈ pyDigits n, d < 10 := by
  intro d hd
  unfold pyDigits at hd
  split at hd
  · simp only [List.mem_singleton] at hd
    omega
  · exact Nat.digits_lt_base (by norm_num) hd

theorem pyDigits_injective : Function.Injective pyDigits := by
  intro a b h
  unfold pyDigits at h
  by_cases ha : a = 0 <;> by_cases hb : b = 0 <;>
    simp only [ha, hb, if_true, if_false, ite_true, ite_false] at h ⊢
  · have := Nat.ofDigits_digits 10 b
    rw [← h] at this
    simp [Nat.ofDigits] at this
    omega
  · have := Nat.ofDigits_digits 10 a
    rw [h] at this
    simp [Nat.ofDigits] at this
    omega
  · have := Nat.ofDigits_digits 10 a
    rw [h, Nat.ofDigits_digits] at this
    omega

theorem pyStrNat_injective : Function.Injective pyStrNat := by
  intro a b h
  apply pyDigits_injective
  apply map_digitChar_inj _ _ (pyDigits_lt a) (pyDigits_lt b)
  have hdata : (((pyDigits a).map Nat.digitChar).reverse) =
      (((pyDigits b).map Nat.digitChar).reverse) := congrArg String.data h
  exact List.reverse_inj.mp hdata

/-! ### Dict lemmas and the closed form of `_prepare_model_data` -/

theorem dictMem_eq_isSome : ∀ (d : List (PyVal × String)) (k : PyVal),
    dictMem d k = (dictLookup d k).isSome
  | [], _ => rfl
  | (k', _) :: rest, k => by
    simp only [dictMem, dictLookup]
    split
    · rfl
    · exact dictMem_eq_isSome rest k

theorem dictLookup_eq_none_of_fresh : ∀ (d : List (PyVal × String)) (k : PyVal),
    (∀ p ∈ d, p.1 ≠ k) → dictLookup d k = none
  | [], _, _ => rfl
  | (k', v') :: rest, k, h => by
    simp only [dictLookup]
    rw [if_neg (h (k', v') (List.mem_cons_self _ _))]
    exact dictLookup_eq_none_of_fresh rest k
      (fun p hp => h p (List.mem_cons_of_mem _ hp))

theorem dictInsert_append_of_fresh : ∀ (d : List (PyVal × String)) (k : PyVal) (v : String),
    (∀ p ∈ d, p.1 ≠ k) → dictInsert d k v = d ++ [(k, v)]
  | [], _, _, _ => rfl
  | (k', v') :: rest, k, v, h => by
    simp only [dictInsert]
    rw [if_neg (h (k', v') (List.mem_cons_self _ _))]
    rw [dictInsert_append_of_fresh rest k v (fun p hp => h p (List.mem_cons_of_mem _ hp))]
    rfl

theorem idxEntries_keys : ∀ (ts : List String) (k : Nat) (p : PyVal × String),
    p ∈ idxEntries k ts → ∃ j, k ≤ j ∧ p.1 = .str (pyStrNat j)
  | [], _, _, hp => by simp [idxEntries] at hp
  | t :: ts, k, p, hp => by
    simp only [idxEntries, List.mem_cons] at hp
    rcases hp with hp | hp
    · exact ⟨k, Nat.le_refl k, by rw [hp]⟩
    · obtain ⟨j, hj, hp1⟩ := idxEntries_keys ts (k + 1) p hp
      exact ⟨j, by omega, hp1⟩

theorem prepareLoop_eq : ∀ (ts : List String) (k : Nat) (acc : List (PyVal × String)),
    (∀ p ∈ acc, ∃ j, j < k ∧ p.1 = .str (pyStrNat j)) →
    prepareLoop acc k ts = acc ++ idxEntries k ts
  | [], _, acc, _ => by simp [prepareLoop, idxEntries]
  | t :: ts, k, acc, h => by
    simp only [prepareLoop, idxEntries]
    have hfresh : ∀ p ∈ acc, p.1 ≠ PyVal.str (pyStrNat k) := by
      intro p hp hk
      obtain ⟨j, hj, hp1⟩ := h p hp
      rw [hp1] at hk
      have : pyStrNat j = pyStrNat k := by
        injection hk
      exact absurd (pyStrNat_injective this) (by omega)
    rw [dictInsert_append_of_fresh acc _ t hfresh]
    have hacc : ∀ p ∈ acc ++ [(PyVal.str (pyStrNat k), t)],
        ∃ j, j < k + 1 ∧ p.1 = PyVal.str (pyStrNat j) := by
      intro p hp
      rcases List.mem_append.mp hp with hp | hp
      · obtain ⟨j, hj, hp1⟩ := h p hp
        exact ⟨j, by omega, hp1⟩
      · simp only [List.mem_singleton] at hp
        exact ⟨k, by omega, by rw [hp]⟩
    rw [prepareLoop_eq ts (k + 1) _ hacc, List.append_assoc]
    rfl

theorem prepare_model_data_eq (texts : List String) :
    prepare_model_data texts = idxEntries 0 texts := by
  have := prepareLoop_eq texts 0 [] (by intro p hp; simp at hp)
  simpa [prepare_model_data] using this

theorem idxEntries_length : ∀ (ts : List String) (k : Nat),
    (idxEntries k ts).length = ts.length
  | [], _ => rfl
  | _ :: ts, k => by
    simp only [idxEntries, List.length_cons, idxEntries_length ts (k + 1)]

theorem idxEntries_get? : ∀ (ts : List String) (k i : Nat) (h : i < ts.length),
    (idxEntries k ts).get? i = some (.str (pyStrNat (k + i)), ts.get ⟨i, h⟩)
  | [], _, i, h => by simp at h
  | t :: ts, k, 0, _ => rfl
  | t :: ts, k, i + 1, h => by
    have h' : i < ts.length := by
      simp only [List.length_cons] at h
      omega
    have hrec := idxEntries_get? ts (k + 1) i h'
    simp only [idxEntries, List.get?]
    rw [show k + (i + 1) = k + 1 + i from by omega]
    exact hrec

theorem dictLookup_idxEntries : ∀ (ts : List String) (k i : Nat) (h : i < ts.length),
    dictLookup (idxEntries k ts) (.str (pyStrNat (k + i))) = some (ts.get ⟨i, h⟩)
  | [], _, i, h => by simp at h
  | t :: ts, k, 0, _ => by
    simp [idxEntries, dictLookup]
  | t :: ts, k, i + 1, h => by
    have h' : i < ts.length := by
      simp only [List.length_cons] at h
      omega
    have hrec := dictLookup_idxEntries ts (k + 1) i h'
    have hne : PyVal.str (pyStrNat k) ≠ PyVal.str (pyStrNat (k + (i + 1))) := by
      intro hk
      have hss : pyStrNat k = pyStrNat (k + (i + 1)) := by injection hk
      exact absurd (pyStrNat_injective hss) (by omega)
    simp only [idxEntries, dictLookup, if_neg hne]
    rw [show k + (i + 1) = k + 1 + i from by omega]
    exact hrec

/-- The value `FittedMLModel.predict` returns on a *string* key: `str` is
the identity on strings, so the guarded subscript always succeeds and the
result is the stored value, or the placeholder when the key is absent. -/
theorem predict_str_eq (m : FittedMLModel) (s : String) :
    m.predict (.str s) =
      .ok ((dictLookup m.data (.str s)).getD "No such sentence in the original dataset") := by
  unfold FittedMLModel.predict
  rw [dictMem_eq_isSome]
  cases h : dictLookup m.data (.str s) with
  | none => simp [h, pyStr]
  | some v => simp [h, pyStr]

/-- The `predict` loop raises the fixed `ValueError` as soon as it meets
the first text absent from the model, whatever came before or follows. -/
theorem predictTexts_aborts (m : FittedMLModel) :
    ∀ (checked : List String) (t : String) (rest : List String),
    (∀ u ∈ checked, m.has_data (.str u) = true) → m.has_data (.str t) = false →
    FitActionExample.predictTexts m (checked ++ t :: rest) =
      .error (.valueError "No such id here, try 0 or 1")
  | [], t, rest, _, ht => by
    simp [FitActionExample.predictTexts, ht]
  | u :: checked, t, rest, hpre, ht => by
    have hu : m.has_data (.str u) = true := hpre u (List.mem_cons_self _ _)
    have hrec := predictTexts_aborts m checked t rest
      (fun x hx => hpre x (List.mem_cons_of_mem _ hx)) ht
    simp [FitActionExample.predictTexts, hu, predict_str_eq, hrec]

/-! ### Claim theorems -/

/-- Claim C7: `_prepare_model_data` on an ordered sequence of texts
produces exactly the mapping whose keys are the decimal strings of the
elements' 0-based positions and whose values are the corresponding texts,
in input order — in particular no deduplication (the mapping always has
one entry per input element, duplicates included) and no validation of the
text content. -/
theorem prepare_model_data_indexed_mapping (texts : List String) :
    (prepare_model_data texts).length = texts.length ∧
    ∀ i (hi : i < texts.length),
      (prepare_model_data texts).get? i =
        some (.str (pyStrNat i), texts.get ⟨i, hi⟩) := by
  rw [prepare_model_data_eq]
  refine ⟨idxEntries_length texts 0, ?_⟩
  intro i hi
  have h := idxEntries_get? texts 0 i hi
  simpa using h

/-- Claim C7 witness: on the duplicated input `["a", "a"]` the mapping has
two entries and entry 0 is `("0", "a")`. -/
theorem prepare_model_data_indexed_mapping_witness :
    (prepare_model_data ["a", "a"]).length = 2 ∧
    (prepare_model_data ["a", "a"]).get? 0 = some (.str (pyStrNat 0), "a") := by
  obtain ⟨h1, h2⟩ := prepare_model_data_indexed_mapping ["a", "a"]
  exact ⟨h1, h2 0 (by decide)⟩

/-- Claim C8: for every key, `FittedMLModel.predict` returns the mapped
value when the key is present in the mapping, and returns the
human-readable placeholder string — rather than failing — when `has_data`
is false. -/
theorem model_predict_lookup_or_placeholder (m : FittedMLModel) (k : String) :
    (∀ v, dictLookup m.data (.str k) = some v → m.predict (.str k) = .ok v) ∧
    (m.has_data (.str k) = false →
      m.predict (.str k) = .ok "No such sentence in the original dataset") := by
  constructor
  · intro v hv
    rw [predict_str_eq, hv]
    rfl
  · intro hfalse
    rw [FittedMLModel.has_data, dictMem_eq_isSome] at hfalse
    rw [predict_str_eq]
    cases h : dictLookup m.data (.str k) with
    | none => rfl
    | some v =>
      rw [h] at hfalse
      simp at hfalse

/-- Claim C8 witness: on the model `{"0": "a"}`, key `"0"` is mapped to
`"a"` and the absent key `"z"` yields the placeholder. -/
theorem model_predict_lookup_or_placeholder_witness :
    FittedMLModel.predict ⟨[(.str "0", "a")]⟩ (.str "0") = .ok "a" ∧
    FittedMLModel.predict ⟨[(.str "0", "a")]⟩ (.str "z") =
      .ok "No such sentence in the original dataset" :=
  ⟨(model_predict_lookup_or_placeholder ⟨[(.str "0", "a")]⟩ "0").1 "a" rfl,
   (model_predict_lookup_or_placeholder ⟨[(.str "0", "a")]⟩ "z").2 rfl⟩

/-- Claim C10: for every string key `k`, `FittedMLModel.predict k` never
raises: membership is tested with the raw key while the subscript uses
`str(key)`, and on strings these coincide, so the result is always a
normal return — the stored value `data[k]` when present, the placeholder
string otherwise. -/
theorem model_predict_string_never_raises (m : FittedMLModel) (k : String) :
    ∃ v : String, m.predict (.str k) = .ok v ∧
      v = (dictLookup m.data (.str k)).getD "No such sentence in the original dataset" :=
  ⟨_, predict_str_eq m k, rfl⟩

/-- Claim C3 counterexample: on the controller fitted from `["a"]`,
`predict(["z"])` raises `ValueError` with the fixed message
`No such id here, try 0 or 1`; the message does not cite the offending
text `"z"` (no character `z` occurs in it), contrary to the claim. -/
theorem predict_message_not_citing_text_cex :
    FitActionExample.predict stA ⟨["z"]⟩ =
      .error (.valueError "No such id here, try 0 or 1") ∧
    ("No such id here, try 0 or 1".data.all (fun c => c != 'z')) = true :=
  ⟨rfl, by decide⟩

/-- Claim C3 amended: for every input sequence, `predict` checks each text
in order against the model; at the first text absent from the model it
raises a `ValueError` whose message is the fixed string
`No such id here, try 0 or 1` (it does not cite the offending text),
terminating the whole batch with zero output elements (no partial
results). -/
theorem predict_aborts_at_first_missing_key (st : ControllerState)
    (checked : List String) (t : String) (rest : List String)
    (hpre : ∀ u ∈ checked, st.model.has_data (.str u) = true)
    (ht : st.model.has_data (.str t) = false) :
    FitActionExample.predict st ⟨checked ++ t :: rest⟩ =
      .error (.valueError "No such id here, try 0 or 1") := by
  have h := predictTexts_aborts st.model checked t rest hpre ht
  simp [FitActionExample.predict, h]

/-- Claim C3 amended witness: on the controller fitted from `["a"]` (model
keys `{"0"}`), the batch `["0", "z", "0"]` fails at `"z"` after the
present key `"0"` was checked. -/
theorem predict_aborts_at_first_missing_key_witness :
    FitActionExample.predict stA ⟨["0"] ++ "z" :: ["0"]⟩ =
      .error (.valueError "No such id here, try 0 or 1") :=
  predict_aborts_at_first_missing_key stA ["0"] "z" ["0"]
    (by intro u hu; simp only [List.mem_singleton] at hu; rw [hu]; rfl) rfl

/-- Claim C1 counterexample: with a local backend and all effects
succeeding, `fit(["a"])` succeeds and the controller reports fitted, yet
`predict(["a"])` — the claim's `predict([T[0]])` — raises the fixed
`ValueError` instead of returning a result equal to `"a"`: `predict` looks
its inputs up among the model's *index keys* `"0", "1", ...`, not among
the fitted texts. -/
theorem fit_predict_original_text_fails_cex :
    FitActionExample.fit env0 wOk st0 ⟨["a"]⟩ "" "" = .ok stA ∧
    FitActionExample.is_fitted stA = true ∧
    FitActionExample.predict stA ⟨["a"]⟩ =
      .error (.valueError "No such id here, try 0 or 1") :=
  ⟨rfl, rfl, rfl⟩

/-- Claim C1 amended: for every non-empty ordered sequence of strings `T`,
after `fit(T)` succeeds, `is_fitted()` is true and, for every `i` in
`range(len(T))`, `predict([str(i)])` — the decimal index key rather than
the original text — returns a single result equal to `T[i]`. -/
theorem fit_then_predict_by_index_ok (env : Env) (W : World) (st : ControllerState)
    (T : List String) (d pd : String) (s : Storage)
    (hres : FitActionExample.get_storage env d = .ok s)
    (hbuild : W.buildException = none)
    (hsave : W.saveResult s st.model_path = none)
    (i : Nat) (hi : i < T.length) :
    ∃ st', FitActionExample.fit env W st ⟨T⟩ d pd = .ok st' ∧
      FitActionExample.is_fitted st' = true ∧
      FitActionExample.predict st' ⟨[pyStrNat i]⟩ = .ok ⟨[⟨[⟨T.get ⟨i, hi⟩⟩]⟩]⟩ := by
  have hlook : dictLookup (prepare_model_data T) (.str (pyStrNat i)) =
      some (T.get ⟨i, hi⟩) := by
    rw [prepare_model_data_eq]
    have h := dictLookup_idxEntries T 0 i hi
    simpa using h
  refine ⟨{ st with storage := s, model := ⟨prepare_model_data T⟩, is_fitted_model := true }, ?_, rfl, ?_⟩
  · simp only [FitActionExample.fit, hres, hbuild, FitActionExample.save_state, hsave]
  · have hhas : FittedMLModel.has_data ⟨prepare_model_data T⟩ (.str (pyStrNat i)) = true := by
      rw [FittedMLModel.has_data]
      show dictMem (prepare_model_data T) (.str (pyStrNat i)) = true
      rw [dictMem_eq_isSome, hlook]
      rfl
    have hpred := predict_str_eq (⟨prepare_model_data T⟩ : FittedMLModel) (pyStrNat i)
    rw [show (⟨prepare_model_data T⟩ : FittedMLModel).data = prepare_model_data T from rfl,
      hlook] at hpred
    simp [FitActionExample.predict, FitActionExample.predictTexts, hhas, hpred]

/-- Claim C1 amended witness: `fit(["a"])` on the local backend with all
effects succeeding, then `predict(["0"])` returns the single result
`"a"`. -/
theorem fit_then_predict_by_index_ok_witness :
    ∃ st', FitActionExample.fit env0 wOk st0 ⟨["a"]⟩ "" "" = .ok st' ∧
      FitActionExample.is_fitted st' = true ∧
      FitActionExample.predict st' ⟨[pyStrNat 0]⟩ = .ok ⟨[⟨[⟨"a"⟩]⟩]⟩ :=
  fit_then_predict_by_index_ok env0 wOk st0 ["a"] "" "" (.localStorage "/models")
    rfl rfl rfl 0 (by decide)

/-- Claim C2 counterexample: with `MLP_STORAGE_TYPE=ftp`, `fit` raises
`ValueError` to its caller (leaving the state unchanged): the backend
resolution happens before the guarded block, contradicting the claim that
every exception arising during the fit operation, including backend
resolution, is caught. -/
theorem fit_raises_on_invalid_storage_type_cex :
    FitActionExample.fit envFtp wOk st0 ⟨["a"]⟩ "" "" =
      .error (.valueError "storage_type ftp is invalid.", st0) :=
  rfl

/-- Claim C2 amended: when backend resolution succeeds, `fit` never raises
to its caller — any exception in the guarded block (model build or
persistence) is caught and logged, and on such a failure the
`FITTED`/`UNFITTED` flag is left unchanged from before the call; an
exception during backend resolution itself, however, propagates to the
caller with the whole state unchanged. -/
theorem fit_exception_policy (env : Env) (W : World) (st : ControllerState)
    (td : TextsCollection) (d pd : String) :
    (∀ s, FitActionExample.get_storage env d = .ok s →
      ∃ st', FitActionExample.fit env W st td d pd = .ok st' ∧
        ((W.buildException = none → W.saveResult s st.model_path ≠ none) →
          st'.is_fitted_model = st.is_fitted_model)) ∧
    (∀ e, FitActionExample.get_storage env d = .error e →
      FitActionExample.fit env W st td d pd = .error (e, st)) := by
  constructor
  · intro s hres
    cases hb : W.buildException with
    | some e =>
      refine ⟨{ st with storage := s }, ?_, fun _ => rfl⟩
      simp only [FitActionExample.fit, hres, hb]
    | none =>
      cases hs : W.saveResult s st.model_path with
      | some e =>
        refine ⟨{ st with storage := s, model := ⟨prepare_model_data td.texts⟩ }, ?_, fun _ => rfl⟩
        simp only [FitActionExample.fit, hres, hb, FitActionExample.save_state, hs]
      | none =>
        refine ⟨{ st with storage := s, model := ⟨prepare_model_data td.texts⟩, is_fitted_model := true }, ?_, ?_⟩
        · simp only [FitActionExample.fit, hres, hb, FitActionExample.save_state, hs]
        · intro hcontra
          exact absurd rfl (hcontra rfl)
  · intro e hres
    simp only [FitActionExample.fit, hres]

/-- Claim C2 amended witness: a failing persist is swallowed (the flag
stays `false`), and an `ftp` discriminator makes `fit` raise. -/
theorem fit_exception_policy_witness :
    (∃ st', FitActionExample.fit env0 wSaveFail st0 ⟨["a"]⟩ "" "" = .ok st' ∧
      ((wSaveFail.buildException = none →
          wSaveFail.saveResult (.localStorage "/models") st0.model_path ≠ none) →
        st'.is_fitted_model = st0.is_fitted_model)) ∧
    FitActionExample.fit envFtp wSaveFail st0 ⟨["a"]⟩ "" "" =
      .error (.valueError "storage_type ftp is invalid.", st0) :=
  ⟨(fit_exception_policy env0 wSaveFail st0 ⟨["a"]⟩ "" "").1 (.localStorage "/models") rfl,
   (fit_exception_policy envFtp wSaveFail st0 ⟨["a"]⟩ "" "").2
     (.valueError "storage_type ftp is invalid.") rfl⟩

/-- Claim C4: `fit` replaces the in-memory model only after it is fully
built — if the build step raises, the prior model and fitted flag are
unchanged (only the storage handle has been reassigned); if the build
succeeds but the subsequent persist raises, the in-memory model is
nevertheless already replaced by the new one while the fitted flag is
unchanged. -/
theorem fit_model_replacement_frame (env : Env) (W : World) (st : ControllerState)
    (td : TextsCollection) (d pd : String) (s : Storage)
    (hres : FitActionExample.get_storage env d = .ok s) :
    (W.buildException.isSome = true →
      FitActionExample.fit env W st td d pd = .ok { st with storage := s }) ∧
    (W.buildException = none → W.saveResult s st.model_path ≠ none →
      FitActionExample.fit env W st td d pd =
        .ok { st with storage := s, model := ⟨prepare_model_data td.texts⟩ }) := by
  constructor
  · intro hb
    cases hbe : W.buildException with
    | none => rw [hbe] at hb; simp at hb
    | some e => simp only [FitActionExample.fit, hres, hbe]
  · intro hb hs
    cases hse : W.saveResult s st.model_path with
    | none => exact absurd hse hs
    | some e =>
      simp only [FitActionExample.fit, hres, hb, FitActionExample.save_state, hse]

/-- Claim C4 witness: on the local backend, a build failure leaves the
model of `st0` (the empty model) in place; a persist failure still
replaces it with the freshly built one. -/
theorem fit_model_replacement_frame_witness :
    FitActionExample.fit env0 wBuildFail st0 ⟨["a"]⟩ "" "" =
      .ok { st0 with storage := .localStorage "/models" } ∧
    FitActionExample.fit env0 wSaveFail st0 ⟨["a"]⟩ "" "" =
      .ok { st0 with storage := .localStorage "/models", model := ⟨prepare_model_data ["a"]⟩ } :=
  ⟨(fit_model_replacement_frame env0 wBuildFail st0 ⟨["a"]⟩ "" ""
      (.localStorage "/models") rfl).1 rfl,
   (fit_model_replacement_frame env0 wSaveFail st0 ⟨["a"]⟩ "" ""
      (.localStorage "/models") rfl).2 rfl (by decide)⟩

/-- Claim C5: construction attempts to restore prior state; when the load
raises the key-lookup failure class (`KeyError`, e.g. the blob is missing)
the failure is caught — construction does not raise — and the controller
starts with `is_fitted()` false; when the load succeeds the controller
starts fitted, holding the restored model. -/
theorem construct_load_policy (env : Env) (W : World) (s : Storage)
    (hres : FitActionExample.get_storage env "" = .ok s) :
    (∀ msg, W.loadResult s "model.pkl" = .error (.keyError msg) →
      ∃ st, FitActionExample.construct env W = .ok st ∧
        FitActionExample.is_fitted st = false) ∧
    (∀ m, W.loadResult s "model.pkl" = .ok m →
      ∃ st, FitActionExample.construct env W = .ok st ∧
        FitActionExample.is_fitted st = true ∧ st.model = m) := by
  constructor
  · intro msg hload
    refine ⟨⟨⟨[]⟩, s, "model.pkl", false⟩, ?_, rfl⟩
    simp only [FitActionExample.construct, hres, FitActionExample.load_state, hload]
  · intro m hload
    refine ⟨⟨m, s, "model.pkl", true⟩, ?_, rfl, rfl⟩
    simp only [FitActionExample.construct, hres, FitActionExample.load_state, hload]

/-- Claim C5 witness: with a missing blob (`KeyError` on load) the
controller constructs unfitted; with a successful load it constructs
fitted with the restored model. -/
theorem construct_load_policy_witness :
    (∃ st, FitActionExample.construct env0 wMiss = .ok st ∧
      FitActionExample.is_fitted st = false) ∧
    (∃ st, FitActionExample.construct env0 wOk = .ok st ∧
      FitActionExample.is_fitted st = true ∧ st.model = ⟨[(.str "0", "a")]⟩) :=
  ⟨(construct_load_policy env0 wMiss (.localStorage "/models") rfl).1 "model.pkl" rfl,
   (construct_load_policy env0 wOk (.localStorage "/models") rfl).2 ⟨[(.str "0", "a")]⟩ rfl⟩

/-- Claim C6: for every storage discriminator equal to neither recognized
backend name, backend resolution raises `ValueError` synchronously — the
outcome is the same for every `World`, i.e. it is decided before and
independently of any filesystem or network I/O — and this holds wherever a
backend is resolved: at construction, in `fit`, and in `prune_state`. -/
theorem invalid_discriminator_fails_fast (env : Env)
    (h1 : env.mlp_storage_type ≠ localStorageName)
    (h2 : env.mlp_storage_type ≠ s3StorageName) :
    ∀ (W : World) (st : ControllerState) (td : TextsCollection) (d pd : String),
      FitActionExample.get_storage env d =
        .error (.valueError ("storage_type " ++ env.mlp_storage_type ++ " is invalid.")) ∧
      FitActionExample.construct env W =
        .error (.valueError ("storage_type " ++ env.mlp_storage_type ++ " is invalid.")) ∧
      FitActionExample.fit env W st td d pd =
        .error (.valueError ("storage_type " ++ env.mlp_storage_type ++ " is invalid."), st) ∧
      FitActionExample.prune_state env W st d =
        .error (.valueError ("storage_type " ++ env.mlp_storage_type ++ " is invalid.")) := by
  intro W st td d pd
  have hgs : ∀ dir, FitActionExample.get_storage env dir =
      .error (.valueError ("storage_type " ++ env.mlp_storage_type ++ " is invalid.")) := by
    intro dir
    simp only [FitActionExample.get_storage]
    rw [if_neg h1, if_neg h2]
  refine ⟨hgs d, ?_, ?_, ?_⟩
  · simp only [FitActionExample.construct, hgs ""]
  · simp only [FitActionExample.fit, hgs d]
  · simp only [FitActionExample.prune_state, hgs]

/-- Claim C6 witness: the `ftp` discriminator fails at every resolution
site under an all-success world. -/
theorem invalid_discriminator_fails_fast_witness :
    FitActionExample.get_storage envFtp "x" =
      .error (.valueError ("storage_type " ++ envFtp.mlp_storage_type ++ " is invalid.")) ∧
    FitActionExample.construct envFtp wOk =
      .error (.valueError ("storage_type " ++ envFtp.mlp_storage_type ++ " is invalid.")) ∧
    FitActionExample.fit envFtp wOk st0 ⟨["a"]⟩ "x" "" =
      .error (.valueError ("storage_type " ++ envFtp.mlp_storage_type ++ " is invalid."), st0) ∧
    FitActionExample.prune_state envFtp wOk st0 "x" =
      .error (.valueError ("storage_type " ++ envFtp.mlp_storage_type ++ " is invalid.")) :=
  invalid_discriminator_fails_fast envFtp (by decide) (by decide) wOk st0 ⟨["a"]⟩ "x" ""

/-- Claim C9: `fit` reassigns the controller's storage handle — resolved
from the `model_dir` override, or from the environment-configured root
when the override is empty — before entering its guarded block, so even a
fit whose guarded block fails permanently changes which storage root a
later `_save_state` targets. -/
theorem fit_reassigns_storage_before_guard (env : Env) (W : World) (st : ControllerState)
    (td : TextsCollection) (d pd : String) (s : Storage)
    (hres : FitActionExample.get_storage env d = .ok s) :
    s.root = (if d.length = 0 then env.mlp_storage_dir else d) ∧
    ∃ st', FitActionExample.fit env W st td d pd = .ok st' ∧
      st'.storage = s ∧ st'.model_path = st.model_path ∧
      FitActionExample.save_state W st' = W.saveResult s st.model_path := by
  constructor
  · simp only [FitActionExample.get_storage] at hres
    split at hres
    · cases hres
      rfl
    · split at hres
      · cases hres
        rfl
      · cases hres
  · cases hb : W.buildException with
    | some e =>
      refine ⟨{ st with storage := s }, ?_, rfl, rfl, rfl⟩
      simp only [FitActionExample.fit, hres, hb]
    | none =>
      cases hs : W.saveResult s st.model_path with
      | some e =>
        refine ⟨{ st with storage := s, model := ⟨prepare_model_data td.texts⟩ }, ?_, rfl, rfl, hs⟩
        simp only [FitActionExample.fit, hres, hb, FitActionExample.save_state, hs]
      | none =>
        refine ⟨{ st with storage := s, model := ⟨prepare_model_data td.texts⟩, is_fitted_model := true }, ?_, rfl, rfl, hs⟩
        simp only [FitActionExample.fit, hres, hb, FitActionExample.save_state, hs]

/-- Claim C9 witness: a fit with override `/custom` whose build step fails
still leaves the handle rooted at `/custom` in place for later saves. -/
theorem fit_reassigns_storage_before_guard_witness :
    (Storage.localStorage "/custom").root =
      (if "/custom".length = 0 then env0.mlp_storage_dir else "/custom") ∧
    ∃ st', FitActionExample.fit env0 wBuildFail st0 ⟨["a"]⟩ "/custom" "" = .ok st' ∧
      st'.storage = .localStorage "/custom" ∧ st'.model_path = st0.model_path ∧
      FitActionExample.save_state wBuildFail st' =
        wBuildFail.saveResult (.localStorage "/custom") st0.model_path :=
  fit_reassigns_storage_before_guard env0 wBuildFail st0 ⟨["a"]⟩ "/custom" ""
    (.localStorage "/custom") rfl

end MlpTemplate
